import Mathlib

/-!
Shallow embedding of `open_spiel/python/games/liars_poker.py` (the Liar's
Poker rules engine and observer) and proofs about the claims of its
specification.

Conventions of the embedding:
  * Python ints are `Int` (digits and actions are small nonnegative ints);
    where the source only ever handles nonnegative indices we also use `Nat`.
  * Python `//` and `%` on ints with a positive right operand agree with
    `Int.ediv` / `Int.emod` (both give the representative in `[0, b)`), so
    those are used wherever the source divides.
  * Python list indexing (including its negative-index wrap-around and its
    `IndexError`) is modelled by `pyIdx` / `pyGet` / `pySet`.
  * Fallible Python code (attribute errors, type errors, index errors,
    assertion failures) is modelled with `Except PyErr`.
  * A read of an attribute that is never assigned anywhere on the object is
    modelled as `Except.error (PyErr.attributeError name)`: that is exactly
    what the Python runtime does, before any of the remaining statements of
    the method can run.
-/

/-- Runtime errors of the Python fragments that the embedding models. -/
inductive PyErr where
  | attributeError (name : String)
  | typeError (msg : String)
  | indexError
  | assertionError
deriving DecidableEq, Repr

/-- Python index normalization for a list of length `len`: nonnegative
indices must be `< len`, negative indices wrap from the end (`l[-1]` is the
last element); anything else raises `IndexError` (modelled as `none`). -/
def pyIdx (len : Nat) (i : Int) : Option Nat :=
  if 0 ≤ i then
    if i.toNat < len then some i.toNat else none
  else
    if i.natAbs ≤ len then some (len - i.natAbs) else none

/-- Python `l[i]` on a list. -/
def pyGet {α : Type} (l : List α) (i : Int) : Option α :=
  match pyIdx l.length i with
  | some j => l.get? j
  | none => none

/-- Python `l[i] = v` on a list. -/
def pySet {α : Type} (l : List α) (i : Int) (v : α) : Option (List α) :=
  match pyIdx l.length i with
  | some j => some (l.set j v)
  | none => none

/-- Constant `_FULL_DECK = [1, 2, 3, 4, 5, 6, 7, 8, 9, 0]` (line 33). -/
def fullDeck : List Int := [1, 2, 3, 4, 5, 6, 7, 8, 9, 0]

/-- Constant `_MIN_NUM_PLAYERS = 2` (line 30). -/
def minNumPlayers : Nat := 2

/-- Constant `_MAX_NUM_PLAYERS = 10` (line 29). -/
def maxNumPlayers : Nat := 10

/-- Constant `_HAND_LENGTH = 3` (line 31). -/
def defaultHandLength : Nat := 3

/-- Constant `_NUM_DIGITS = 3` (line 32). -/
def defaultNumDigits : Nat := 3

/-- The framework constant `pyspiel.PlayerId.CHANCE` (= -1). -/
def chanceId : Int := -1

/-- The framework constant `pyspiel.PlayerId.TERMINAL` (= -4). -/
def terminalId : Int := -4

/-- Enum member `Action.CHALLENGE` (line 27); as an `IntEnum` it compares
equal to the plain int 1 (and `Action.BID` to 0). -/
def challengeAct : Int := 1

/-- The fields of `LiarsPokerState` assigned by `__init__` (lines 88-111).
The Python object has EXACTLY these attributes: in particular it has no
attribute `_is_terminal` (the terminal flag assigned on line 109 is
`_game_over`) and no attribute `actions`, which matters below. -/
structure LiarsPokerState where
  numPlayers : Nat
  handLength : Nat
  numDigits : Nat
  deck : List Int
  hands : List (List Int)
  bidHistory : List (List Int)
  challengeHistory : List (List Int)
  currentPlayer : Nat
  bidOriginator : Nat
  currentBid : Int
  numChallenges : Nat
  isRebid : Bool
  gameOver : Bool
  winner : Int
  loser : Int
deriving DecidableEq, Repr

/-- Total size of the bid space,
`hand_length * num_digits * num_players`, as used on lines 99 and 143. -/
def totalBids (s : LiarsPokerState) : Nat :=
  s.handLength * s.numDigits * s.numPlayers

/-- Total size of the bid space as a Python int. -/
def totalBidsInt (s : LiarsPokerState) : Int := (totalBids s : Int)

/-- Constructor `LiarsPokerState.__init__` (lines 88-111), given the four
game attributes that it copies out of the `LiarsPoker` game object. -/
def initialState (np hl nd : Nat) (deck : List Int) : LiarsPokerState :=
  { numPlayers := np
    handLength := hl
    numDigits := nd
    deck := deck
    hands := List.replicate np []
    bidHistory := List.replicate (hl * nd * np) (List.replicate np 0)
    challengeHistory := List.replicate (hl * nd * np) (List.replicate np 0)
    currentPlayer := 0
    bidOriginator := 0
    currentBid := -1
    numChallenges := 0
    isRebid := false
    gameOver := false
    winner := -1
    loser := -1 }

/-- Method `current_player` (lines 113-126).  Its first statement (line 121)
reads `self._is_terminal`; `__init__` assigns no attribute of that name (the
flag it assigns is `_game_over`, line 109) and neither the class body nor the
framework base class defines one, so in Python this lookup raises
`AttributeError` on every state, before the docstring's classification
(terminal / chance / player index) can be computed. -/
def current_player (_s : LiarsPokerState) : Except PyErr Int :=
  .error (.attributeError "_is_terminal")

/-- Method `current_player` with its single undefined-attribute read repaired:
the `self._is_terminal` read of line 121 replaced by the `_game_over` flag
that `__init__` actually assigns (the reading documented by the method's own
docstring, lines 114-120).  Lines 123-126 are translated literally.  This
variant exists to exhibit the behavior of the rest of the state machine past
that crash. -/
def currentPlayerPatched (s : LiarsPokerState) : Int :=
  if s.gameOver then terminalId
  else if (s.hands.getD (s.numPlayers - 1) []).length < s.handLength then chanceId
  else (s.currentPlayer : Int)

/-- Method `_is_challenge_possible` (lines 128-130). -/
def is_challenge_possible (s : LiarsPokerState) : Bool :=
  s.currentBid != -1

/-- Method `_is_rebid_possible` (lines 132-134).  The Python comparison
`self._num_challenges == self._num_players - 1` is over ints, so it is taken
over `Int`. -/
def is_rebid_possible (s : LiarsPokerState) : Bool :=
  !s.isRebid && ((s.numChallenges : Int) == (s.numPlayers : Int) - 1)

/-- Python `range(a, b)` over ints, as a list. -/
def intRange (a b : Int) : List Int :=
  (List.range (b - a).toNat).map (fun (i : Nat) => a + (i : Int))

/-- The bid part of `_legal_actions` (lines 141-144): the loop appends the
ints `range(self._current_bid + 1, hand_length * num_digits * num_players)`
when `player != self._bid_originator or self._is_rebid_possible()`. -/
def bidPortion (s : LiarsPokerState) (player : Nat) : List Int :=
  if player != s.bidOriginator || is_rebid_possible s then
    intRange (s.currentBid + 1) (totalBidsInt s)
  else []

/-- The challenge part of `_legal_actions` (lines 146-147): `CHALLENGE` is
appended when `_is_challenge_possible()`. -/
def challengePortion (s : LiarsPokerState) : List Int :=
  if is_challenge_possible s then [challengeAct] else []

/-- Method `_legal_actions` (lines 136-149): starts from `[]`, extends with
the bid loop, then appends `Action.CHALLENGE`. -/
def legal_actions (s : LiarsPokerState) (player : Nat) : List Int :=
  bidPortion s player ++ challengePortion s

/-- Method `_decode_bid` (lines 157-171):
`count = bid % (hand_length * num_players)` and
`number = deck[bid // (hand_length * num_players)]`.  Python `%` and `//`
with a positive right operand are `Int.emod` and `Int.ediv`; the deck
indexing is Python indexing (wrap-around for negative, `IndexError`, i.e.
`none`, out of range). -/
def decode_bid (s : LiarsPokerState) (bid : Int) : Option (Int × Int) :=
  match pyGet s.deck (Int.ediv bid ((s.handLength * s.numPlayers : Nat) : Int)) with
  | some number =>
    some (Int.emod bid ((s.handLength * s.numPlayers : Nat) : Int), number)
  | none => none

/-- The double loop of `_counts` (lines 180-184): the number of digits equal
to `number` across `self.hands[0] .. self.hands[num_players - 1]`. -/
def matchCount (s : LiarsPokerState) (number : Int) : Nat :=
  ((List.range s.numPlayers).map
    (fun p => ((s.hands.getD p []).filter (fun d => d == number)).length)).sum

/-- Method `_counts` (lines 173-191): decodes `self._current_bid`, counts the
matches of the decoded digit over all hands, and sets `_winner` to the bid
originator when `matches >= bid_count`, else sets `_loser` to the bid
originator.  The only failure is the `IndexError` of the decode's deck
lookup. -/
def counts (s : LiarsPokerState) : Except PyErr LiarsPokerState :=
  match decode_bid s s.currentBid with
  | none => .error .indexError
  | some (bidCount, bidNumber) =>
    if (matchCount s bidNumber : Int) ≥ bidCount then
      .ok { s with winner := (s.bidOriginator : Int) }
    else
      .ok { s with loser := (s.bidOriginator : Int) }

/-- Helper for `_update_bid_history` / `_update_challenge_history`
(lines 193-199): `matrix[bid][player] = 1`, with Python indexing on the row
index (an int) and the player column (always a valid `Nat` here). -/
def updateHistory (m : List (List Int)) (bid : Int) (player : Nat) :
    Option (List (List Int)) :=
  match pyIdx m.length bid with
  | none => none
  | some i =>
    let row := m.getD i []
    if player < row.length then some (m.set i (row.set player 1)) else none

/-- The local `bidder_reward` of `returns` (lines 249-257): `num_players - 1`
when `_winner != -1`, `-1 * (num_players - 1)` when `_loser != -1`, else 0.
The source's floats are the exact small integers written here. -/
def bidderReward (s : LiarsPokerState) : Int :=
  if s.winner ≠ -1 then (s.numPlayers : Int) - 1
  else if s.loser ≠ -1 then -((s.numPlayers : Int) - 1)
  else 0

/-- The local `others_reward` of `returns` (lines 249-258): `-1` when
`_winner != -1`, `1` when `_loser != -1`, else 0. -/
def othersReward (s : LiarsPokerState) : Int :=
  if s.winner ≠ -1 then -1
  else if s.loser ≠ -1 then 1
  else 0

/-- Method `returns` (lines 247-260): the comprehension
`[others_reward if player_id != bid_originator else bidder_reward
for player_id in range(num_players)]`. -/
def returnsList (s : LiarsPokerState) : List Int :=
  (List.range s.numPlayers).map
    (fun playerId => if playerId ≠ s.bidOriginator then othersReward s else bidderReward s)

/-- The chance branch of `_apply_action` (lines 203-206):
`self.hands[self._current_player].append(action)` followed by an early
`return` — note it does NOT advance `_current_player`, and line 232 is
skipped by the `return`. -/
def applyChanceBranch (s : LiarsPokerState) (action : Int) : LiarsPokerState :=
  { s with hands :=
      s.hands.set s.currentPlayer ((s.hands.getD s.currentPlayer []) ++ [action]) }

/-- Method `_apply_action` (lines 201-232), literally.  Line 203 calls
`self.is_chance_node()`, which the framework implements as
`current_player() == CHANCE`; `current_player` raises `AttributeError`
(undefined `_is_terminal`, see `current_player` above), so the whole method
fails on every state and every action, and the remaining branches are dead.
For completeness the dead branches are still translated: the challenge branch
(line 208) and the bid branch (line 219) would next read `self.actions`,
another attribute `__init__` never assigns, and raise `AttributeError`
again. -/
def apply_action (s : LiarsPokerState) (action : Int) : Except PyErr LiarsPokerState :=
  match current_player s with
  | .error e => .error e
  | .ok cp =>
    if cp == chanceId then
      .ok (applyChanceBranch s action)
    else if action == challengeAct then
      .error (.attributeError "actions")
    else
      .error (.attributeError "actions")

/-- Method `_apply_action` with the `current_player` crash repaired (the
`_is_terminal` read replaced by the `_game_over` flag, as
`currentPlayerPatched`), and nothing else changed: the chance branch appends
and returns without advancing `_current_player` (lines 204-206), and the
challenge branch (line 208) and bid branch (line 219) still begin with the
`self.actions[self._current_player].append(action)` statement, whose
attribute read raises `AttributeError` since `__init__` assigns no
`actions` attribute. -/
def applyActionPatched (s : LiarsPokerState) (action : Int) :
    Except PyErr LiarsPokerState :=
  if currentPlayerPatched s == chanceId then
    .ok (applyChanceBranch s action)
  else if action == challengeAct then
    .error (.attributeError "actions")
  else
    .error (.attributeError "actions")

/-- The challenge branch of `_apply_action` (lines 207-217) with the dead
`self.actions` logging statement of line 208 dropped, followed by the shared
fall-through advance of line 232: assert a challenge is possible, record
`challenge_history[current_bid][current_player] = 1`, increment
`_num_challenges`, resolve via `_counts()` and set `_game_over` when
`(not is_rebid and num_challenges == num_players) or
(is_rebid and num_challenges == num_players - 1)`, then (in every case,
because line 232 is outside the conditional) advance
`_current_player = (current_player + 1) % num_players`. -/
def challengeBranchFixed (s : LiarsPokerState) : Except PyErr LiarsPokerState := do
  if !(is_challenge_possible s) then
    .error .assertionError
  else
    match updateHistory s.challengeHistory s.currentBid s.currentPlayer with
    | none => .error .indexError
    | some ch =>
      let s1 := { s with challengeHistory := ch, numChallenges := s.numChallenges + 1 }
      let s2 ←
        if (!s1.isRebid && ((s1.numChallenges : Int) == (s1.numPlayers : Int))) ||
            (s1.isRebid && ((s1.numChallenges : Int) == (s1.numPlayers : Int) - 1)) then do
          let sR ← counts s1
          pure { sR with gameOver := true }
        else
          pure s1
      pure { s2 with currentPlayer := (s2.currentPlayer + 1) % s2.numPlayers }

/-- The bid branch of `_apply_action` (lines 218-231) with the dead
`self.actions` logging statement of line 219 dropped, followed by the
fall-through advance of line 232: set `_current_bid` to the action, set
`is_rebid` from the comparison of `_current_player` with the OLD
`_bid_originator`, set `_bid_originator` to the current player, record
`bid_history[current_bid][current_player] = 1`, reset `_num_challenges` to 0
and advance the current player. -/
def bidBranchFixed (s : LiarsPokerState) (action : Int) : Except PyErr LiarsPokerState :=
  let s1 := { s with currentBid := action,
                     isRebid := decide (s.currentPlayer = s.bidOriginator),
                     bidOriginator := s.currentPlayer }
  match updateHistory s1.bidHistory s1.currentBid s1.currentPlayer with
  | none => .error .indexError
  | some bh =>
    .ok { s1 with bidHistory := bh,
                  numChallenges := 0,
                  currentPlayer := (s1.currentPlayer + 1) % s1.numPlayers }

/-- Method `_apply_action` with BOTH undefined-attribute slips repaired: the
`_is_terminal` read of `current_player` replaced by the assigned `_game_over`
flag, and the two reads of the never-initialized `self.actions` (lines 208
and 219) dropped.  Everything else is the literal source, including the
chance branch's missing player advance and the fall-through advance of
line 232.  This variant documents what the remaining source code does once
the two crashing reads are out of the way. -/
def applyActionFixed (s : LiarsPokerState) (action : Int) :
    Except PyErr LiarsPokerState :=
  if currentPlayerPatched s == chanceId then
    .ok (applyChanceBranch s action)
  else if action == challengeAct then
    challengeBranchFixed s
  else
    bidBranchFixed s action

/-- Parameter dictionaries passed to the game constructor: an association
list of parameter name to int value. -/
def ParamsDict : Type := List (String × Nat)

/-- The fields of a `LiarsPoker` game object as assigned by `__init__`
(lines 64-69). -/
structure LiarsPokerGame where
  deck : List Int
  numPlayers : Nat
  handLength : Nat
  numDigits : Nat
deriving DecidableEq, Repr

/-- Python `params.get(key, default=value)` as written on lines 66-69.
CPython's `dict.get(key, default=None, /)` takes positional-only arguments,
so calling it with the keyword argument `default` raises
`TypeError: get() takes no keyword arguments` — unconditionally, whatever
the dictionary contains. -/
def dictGetKw (_params : ParamsDict) (_key : String) (_dflt : Nat) :
    Except PyErr Nat :=
  .error (.typeError "get() takes no keyword arguments")

/-- Constructor `LiarsPoker.__init__` (lines 64-69).  Line 65 hands
`params or dict()` to the framework base constructor (external, modelled as
a no-op).  Line 66 then evaluates `params.get("num_digits", default=...)` on
the ORIGINAL `params`: if `params` is `None` the attribute lookup `.get`
raises `AttributeError`; if it is a dict, the keyword `default` raises
`TypeError` (see `dictGetKw`).  Either way construction fails before any
field is assigned; the remaining lines (66-69: deck comprehension over
`_FULL_DECK`, and the three parameter fields) are translated for
completeness but are dead code. -/
def liarsPokerInit (params : Option ParamsDict) : Except PyErr LiarsPokerGame :=
  match params with
  | none => .error (.attributeError "get")
  | some d => do
    let deckLen ← dictGetKw d "num_digits" defaultNumDigits
    let np ← dictGetKw d "num_players" minNumPlayers
    let hl ← dictGetKw d "hand_length" defaultHandLength
    let nd ← dictGetKw d "num_digits" defaultNumDigits
    pure { deck := fullDeck.take deckLen
           numPlayers := np
           handLength := hl
           numDigits := nd }

/-- The three observation-type flags the observer consults
(`iig_obs_type.private_info == SINGLE_PLAYER`, `iig_obs_type.public_info`,
`iig_obs_type.perfect_recall`). -/
structure IIGObsType where
  singlePlayerPrivateInfo : Bool
  publicInfo : Bool
  perfectRecall : Bool
deriving DecidableEq, Repr

/-- The `pieces` list built by `LiarsPokerObserver.__init__`
(lines 294-309): each piece is its name together with its flat size. -/
def observerPieces (t : IIGObsType) (np hl nd : Nat) : List (String × Nat) :=
  [("player", np)]
  ++ (if t.singlePlayerPrivateInfo then [("private_hand", hl)] else [])
  ++ (if t.publicInfo then
        [("rebid_state", 1), ("counts_state", 1)]
        ++ (if t.perfectRecall then
              [("bid_history", hl * nd * np * np),
               ("challenge_history", hl * nd * np * np)]
            else [])
      else [])

/-- The flat tensor size computed on line 312:
`sum(size for name, size, shape in pieces)`.  It depends only on the
configuration and the observation-type flags, never on a state. -/
def observerTensorSize (t : IIGObsType) (np hl nd : Nat) : Nat :=
  ((observerPieces t np hl nd).map (fun piece => piece.2)).sum

/-- Method `LiarsPokerObserver.set_from` (lines 322-336), returning the flat
tensor contents after the call.  Line 324 zero-fills the tensor.  Line 326
(`self.dict["player"][player] = 1`) is an ELEMENT write through the numpy
view at offset 0, so it lands in the flat tensor (and raises `IndexError`
when `player` is out of the view's range).  Line 327 guards the private-hand
piece on the piece's presence and on `len(state.hands[player]) ==
self.hand_length`; when the guard passes, line 328 reads `self.hands` — an
attribute `LiarsPokerObserver.__init__` never assigns (the hands live on
`state`) — raising `AttributeError`.  Lines 329-336 REBIND dict entries
(`self.dict[name] = value`), replacing the views by fresh objects without
writing the flat tensor, so they leave the tensor unchanged. -/
def setFrom (t : IIGObsType) (np hl nd : Nat) (st : LiarsPokerState)
    (player : Nat) : Except PyErr (List Int) := do
  let tensor := List.replicate (observerTensorSize t np hl nd) (0 : Int)
  let tensor ←
    if player < np then pure (tensor.set player 1) else .error .indexError
  if t.singlePlayerPrivateInfo && ((st.hands.getD player []).length == hl) then
    .error (.attributeError "hands")
  else
    pure tensor

/-- Modelled from the spec: the implicit `encode(count, digitIndex)` of the
BidCodec, the inverse of `_decode_bid`, which the spec describes but the
engine never defines as a separate function — the digit's block start plus
the count slot: `digitIndex * (handLength * numPlayers) + count`. -/
def encodeBid (s : LiarsPokerState) (count digitIndex : Nat) : Nat :=
  digitIndex * (s.handLength * s.numPlayers) + count

/-- Concrete game configuration for the claims' scenarios: 2 players, hand
length 1, a one-digit deck (digit 1 only); the initial state of that game. -/
def stateDeal : LiarsPokerState := initialState 2 1 1 [1]

/-- The state after one chance outcome (digit 1) under the patched apply. -/
def stateDeal1 : LiarsPokerState := applyChanceBranch stateDeal 1

/-- The state after two chance outcomes (digit 1 twice) under the patched
apply. -/
def stateDeal2 : LiarsPokerState := applyChanceBranch stateDeal1 1

/-- A directly-constructed bidding-phase state of the 2-player, hand-length-1,
one-digit game: both hands dealt (`[[1], [1]]`), no bid yet, player 1 to act.
No such state is reachable through the source's own dynamics (see the claim
on dealing), so it is built explicitly. -/
def stateBid : LiarsPokerState :=
  { stateDeal with hands := [[1], [1]], currentPlayer := 1 }

/-- The state the bid transition of the claim is expected to produce when
player 1 applies bid 0 in `stateBid`. -/
def stateAfterBid : LiarsPokerState :=
  { stateBid with currentBid := 0, isRebid := false, bidOriginator := 1,
                  bidHistory := [[0, 1], [0, 0]], numChallenges := 0,
                  currentPlayer := 0 }

/-- The state expected after player 0 challenges in `stateAfterBid` (no
resolution yet: one challenge of two). -/
def stateChal1 : LiarsPokerState :=
  { stateAfterBid with challengeHistory := [[1, 0], [0, 0]],
                       numChallenges := 1, currentPlayer := 1 }

/-- The state expected after player 1 also challenges in `stateChal1`:
resolution (2 challenges = 2 players, no rebid), bid 0 decodes to count 0 of
digit 1, both hands hold a 1 (2 matches >= 0), so the originator (player 1)
wins, the game ends, and the fall-through of line 232 still advances the
current player. -/
def stateChal2 : LiarsPokerState :=
  { stateChal1 with challengeHistory := [[1, 1], [0, 0]],
                    numChallenges := 2, gameOver := true, winner := 1,
                    currentPlayer := 0 }

/-- A state of the 2-player, hand-length-1, TWO-digit game (deck `[1, 2]`)
whose standing bid is the block-start identifier 0 of digit 1 while the hands
`[[2], [2]]` hold NO occurrence of digit 1. -/
def stateZero : LiarsPokerState :=
  { initialState 2 1 2 [1, 2] with hands := [[2], [2]], currentBid := 0 }

/-- The state of the claims' own scenario: one-digit deck, both hands `[1]`,
standing bid 0 ("one 1" under the spec's convention), originator player 1. -/
def stateOne : LiarsPokerState :=
  { initialState 2 1 1 [1] with hands := [[1], [1]], currentBid := 0,
                                bidOriginator := 1 }

/-- A well-formed parameter dictionary (player count in [2,10], positive hand
length and digit count). -/
def validParams : ParamsDict :=
  [("num_players", 2), ("hand_length", 1), ("num_digits", 1)]

/-- A parameter dictionary with a player count outside [2,10]. -/
def invalidParams : ParamsDict :=
  [("num_players", 11), ("hand_length", 1), ("num_digits", 1)]

/-- Observation-type flags requesting single-player private info and no
public info (so the observer's pieces are the player one-hot block and the
private-hand block). -/
def obsPrivate : IIGObsType :=
  { singlePlayerPrivateInfo := true, publicInfo := false, perfectRecall := false }

/-- Claim C1: during the deal phase every chance outcome is appended to the
hand of the first player (in index order) whose hand is incomplete, dealing
terminates after exactly `numPlayers * handLength` chance actions, after
which `currentActor()` never reports chance again and turn order begins at
player 0.  The code violates this: applying ANY action (the first deal
included) raises `AttributeError` because `_apply_action` starts with
`is_chance_node()`, which calls `current_player`, which reads the undefined
`_is_terminal`; and even with that read repaired, the chance branch never
advances `_current_player`, so in the 2-player, hand-length-1 game BOTH
draws land in player 0's hand (`[[1, 1], []]`, though after the first draw
the first incomplete player is player 1) and after `numPlayers * handLength
= 2` chance actions the current actor is STILL chance (player 1's hand can
never fill), so dealing never terminates. -/
theorem claim_C1_dealing_broken :
    apply_action stateDeal 1 = .error (.attributeError "_is_terminal") ∧
    applyActionPatched stateDeal 1 = .ok stateDeal1 ∧
    stateDeal1.hands = [[1], []] ∧
    currentPlayerPatched stateDeal1 = chanceId ∧
    applyActionPatched stateDeal1 1 = .ok stateDeal2 ∧
    stateDeal2.hands = [[1, 1], []] ∧
    currentPlayerPatched stateDeal2 = chanceId := by
  exact ⟨rfl, rfl, rfl, rfl, rfl, rfl, rfl⟩

/-- Claim C5: `currentActor()` classifies every reachable state without
failing (terminal marker when over, chance marker while a hand is short,
else the current player's index).  The code violates this: `current_player`
reads the attribute `_is_terminal`, which `__init__` never assigns (it
assigns `_game_over`), so the method raises `AttributeError` on every state
— at the initial (dealing) state, at a bidding state with full hands, and
at a game-over state alike. -/
theorem claim_C5_current_player_raises :
    current_player stateDeal = .error (.attributeError "_is_terminal") ∧
    current_player stateBid = .error (.attributeError "_is_terminal") ∧
    current_player { stateBid with gameOver := true } =
      .error (.attributeError "_is_terminal") := by
  exact ⟨rfl, rfl, rfl⟩

/-- Claim C2: applying a legal bid `b` by player `p` in the bidding phase
sets `currentBid := b`, `bidHistory[b][p] := 1`, updates `isRebid` and
`bidOriginator`, resets `numChallenges` and advances the current player.
The code violates this: with bid 0 legal for player 1 in `stateBid`, the
literal `_apply_action` raises `AttributeError` at its first statement (the
`is_chance_node()` call reads the undefined `_is_terminal`), and with that
read repaired it raises `AttributeError` at the bid branch's first statement,
which reads the never-initialized `self.actions`.  With both undefined reads
out of the way the remaining source performs exactly the claimed
transition. -/
theorem claim_C2_bid_transition_crashes :
    (0 : Int) ∈ legal_actions stateBid 1 ∧
    apply_action stateBid 0 = .error (.attributeError "_is_terminal") ∧
    applyActionPatched stateBid 0 = .error (.attributeError "actions") ∧
    applyActionFixed stateBid 0 = .ok stateAfterBid := by
  exact ⟨by decide, rfl, rfl, rfl⟩

/-- Claim C3: a challenge records `challengeHistory[currentBid][p] := 1`,
increments `numChallenges`, resolves via the hand counts exactly at the
stated thresholds, and otherwise advances the current player.  The code
violates this the same way as the bid transition: the literal
`_apply_action` raises `AttributeError` at `is_chance_node()` (undefined
`_is_terminal`), and with that repaired it raises `AttributeError` at the
challenge branch's first statement (the never-initialized `self.actions`).
With both undefined reads out of the way the remaining source performs the
claimed updates: player 0's challenge records and advances without
resolving, player 1's second challenge reaches `numChallenges = numPlayers`,
resolves through `_counts` (2 matches of digit 1 >= decoded count 0, so the
originator, player 1, wins) and sets the game over. -/
theorem claim_C3_challenge_transition_crashes :
    challengeAct ∈ legal_actions stateAfterBid 0 ∧
    apply_action stateAfterBid 1 = .error (.attributeError "_is_terminal") ∧
    applyActionPatched stateAfterBid 1 = .error (.attributeError "actions") ∧
    applyActionFixed stateAfterBid 1 = .ok stateChal1 ∧
    applyActionFixed stateChal1 1 = .ok stateChal2 ∧
    stateChal2.gameOver = true ∧
    stateChal2.winner = (stateChal2.bidOriginator : Int) := by
  exact ⟨by decide, rfl, rfl, rfl, rfl, rfl, rfl⟩

/-- Claim C4: the block-start bid identifier denotes ONE occurrence, so
resolving a challenge on it makes the originator win exactly when at least
one occurrence of the block's digit exists.  The code violates the "only
if": `_decode_bid` maps the block-start identifier to count 0 (no `+ 1`),
and `_counts` compares `matches >= bid_count`, so with bid 0 (block start of
digit 1 in the deck `[1, 2]`) and hands `[[2], [2]]` holding ZERO 1s the
originator still wins.  The claim's own concrete scenario (one-digit deck,
both hands `[1]`, bid "one 1", i.e. identifier 0) does end with the bidder
winning (2 matches >= 0), so only the zero-occurrence side distinguishes
code from claim. -/
theorem claim_C4_block_start_counts_as_zero :
    decode_bid stateZero 0 = some (0, 1) ∧
    matchCount stateZero 1 = 0 ∧
    counts stateZero = .ok { stateZero with winner := 0 } ∧
    decode_bid stateOne 0 = some (0, 1) ∧
    matchCount stateOne 1 = 2 ∧
    counts stateOne = .ok { stateOne with winner := 1 } := by
  exact ⟨rfl, rfl, rfl, rfl, rfl, rfl⟩

/-- Claim C7: constructing the game with a valid configuration succeeds and
records the parameters, while an invalid one fails with
`InvalidConfiguration`.  The code violates both halves: `__init__` calls
`params.get(name, default=...)`, and CPython's `dict.get` takes no keyword
arguments, so EVERY construction with an explicit parameter dict — valid or
invalid — raises `TypeError` before any field is assigned, and construction
with no parameters raises `AttributeError` (`None.get`); nothing is ever
recorded and no range check ever runs. -/
theorem claim_C7_construction_always_fails :
    liarsPokerInit (some validParams) =
      .error (.typeError "get() takes no keyword arguments") ∧
    liarsPokerInit (some invalidParams) =
      .error (.typeError "get() takes no keyword arguments") ∧
    liarsPokerInit none = .error (.attributeError "get") := by
  exact ⟨rfl, rfl, rfl⟩

/-- Claim C8: the observation tensor has constant size for fixed
configuration and flags, and the private-hand block is all-zero until the
viewing player's hand is full, after which `set_from` makes it equal the
hand.  The code satisfies the size constancy and the all-zero-before-full
part (the tensor is sized once at observer construction, and `set_from`
zero-fills), but violates the after-full part: as soon as the viewing
player's hand reaches `hand_length`, line 328 reads `self.hands` — an
attribute the observer never has (the hands live on the state) — and
`set_from` raises `AttributeError` instead of filling the block. -/
theorem claim_C8_private_hand_crash :
    observerTensorSize obsPrivate 2 1 1 = 3 ∧
    setFrom obsPrivate 2 1 1 stateDeal 0 = .ok [1, 0, 0] ∧
    setFrom obsPrivate 2 1 1 stateDeal 1 = .ok [0, 1, 0] ∧
    setFrom obsPrivate 2 1 1 stateBid 0 = .error (.attributeError "hands") := by
  exact ⟨rfl, rfl, rfl, rfl⟩

/-- Membership in a Python int range: `x in range(a, b)` iff `a <= x < b`. -/
theorem mem_intRange {a b x : Int} : x ∈ intRange a b ↔ a ≤ x ∧ x < b := by
  unfold intRange
  simp only [List.mem_map, List.mem_range]
  constructor
  · rintro ⟨i, hi, rfl⟩
    omega
  · rintro ⟨h1, h2⟩
    exact ⟨(x - a).toNat, by omega, by omega⟩

/-- Claim C6: in a bidding state with acting player `p`, the legal-action
list is the bid portion followed by the challenge portion; the challenge
entry is present exactly when `currentBid != -1`; when `p` is not the bid
originator or a rebid is possible, the bid portion contains every identifier
strictly between `currentBid` and `totalBids` (hence all of
`[0, totalBids)` when `currentBid = -1`); and the bid portion never contains
an identifier `<= currentBid` (nor one `>= totalBids`). -/
theorem claim_C6_legal_actions (s : LiarsPokerState) (p : Nat) :
    legal_actions s p = bidPortion s p ++ challengePortion s ∧
    (challengePortion s = [challengeAct] ↔ s.currentBid ≠ -1) ∧
    ((p ≠ s.bidOriginator ∨ is_rebid_possible s = true) →
      ∀ b : Int, s.currentBid < b → b < totalBidsInt s → b ∈ bidPortion s p) ∧
    (∀ b ∈ bidPortion s p, s.currentBid < b ∧ b < totalBidsInt s) := by
  refine ⟨rfl, ?_, ?_, ?_⟩
  · unfold challengePortion is_challenge_possible
    by_cases h : s.currentBid = -1
    · simp [h, challengeAct]
    · simp [h]
  · intro hcond b h1 h2
    have hc : (p != s.bidOriginator || is_rebid_possible s) = true := by
      rcases hcond with h | h
      · simp [h]
      · simp [h]
    unfold bidPortion
    rw [if_pos hc]
    exact mem_intRange.mpr ⟨by omega, h2⟩
  · intro b hb
    unfold bidPortion at hb
    by_cases hc : (p != s.bidOriginator || is_rebid_possible s) = true
    · rw [if_pos hc] at hb
      have := mem_intRange.mp hb
      exact ⟨by omega, this.2⟩
    · rw [if_neg hc] at hb
      simp at hb

/-- Witness for the legal-action claim at a concrete bidding state: player 1
is not the bid originator in `stateBid`, bid 0 is contained in the bid
portion, and it lies strictly between the current bid (-1) and the total bid
count. -/
theorem claim_C6_legal_actions_witness :
    ((1 : Nat) ≠ stateBid.bidOriginator ∨ is_rebid_possible stateBid = true) ∧
    (0 : Int) ∈ bidPortion stateBid 1 ∧
    stateBid.currentBid < 0 ∧ (0 : Int) < totalBidsInt stateBid := by
  have h := claim_C6_legal_actions stateBid 1
  have hcond : (1 : Nat) ≠ stateBid.bidOriginator ∨ is_rebid_possible stateBid = true :=
    Or.inl (by decide)
  have hmem : (0 : Int) ∈ bidPortion stateBid 1 :=
    h.2.2.1 hcond 0 (by decide) (by decide)
  exact ⟨hcond, hmem, h.2.2.2 0 hmem⟩

/-- Sum of a constant map over `List.range`. -/
theorem sum_map_const_range (o : Nat) (b : Int) :
    ((List.range o).map (fun _ => b)).sum = (o : Int) * b := by
  induction o with
  | zero => simp
  | succ m ih =>
    rw [List.range_succ, List.map_append, List.sum_append, ih]
    simp only [List.map_cons, List.map_nil, List.sum_cons, List.sum_nil, add_zero]
    push_cast
    ring

/-- Sum over `List.range n` of a function that is `a` at `o < n` and `b`
everywhere else. -/
theorem sum_map_range_ite (n o : Nat) (a b : Int) (h : o < n) :
    ((List.range n).map (fun p => if p ≠ o then b else a)).sum
      = a + b * ((n : Int) - 1) := by
  induction n with
  | zero => exact absurd h (Nat.not_lt_zero o)
  | succ m ih =>
    rw [List.range_succ, List.map_append, List.sum_append]
    by_cases hm : o = m
    · subst hm
      have hmap : (List.range o).map (fun p => if p ≠ o then b else a)
          = (List.range o).map (fun _ => b) :=
        List.map_congr_left (fun x hx => by
          have hxo : x ≠ o := Nat.ne_of_lt (List.mem_range.mp hx)
          simp [hxo])
      rw [hmap, sum_map_const_range]
      simp only [List.map_cons, List.map_nil, List.sum_cons, List.sum_nil, ne_eq,
        not_true_eq_false, if_false, add_zero]
      push_cast
      ring
    · have ho : o < m := by omega
      rw [ih ho]
      have hmo : m ≠ o := fun hh => hm hh.symm
      simp only [List.map_cons, List.map_nil, List.sum_cons, List.sum_nil, ne_eq,
        hmo, not_false_eq_true, if_true, add_zero]
      push_cast
      ring

/-- Element lookup of a mapped range, with the default never used. -/
theorem getD_map_range (n : Nat) (f : Nat → Int) (p : Nat) (hp : p < n) :
    ((List.range n).map f).getD p 0 = f p := by
  rw [List.getD_eq_getElem?_getD, List.getElem?_map, List.getElem?_range hp]
  rfl

/-- Claim C9: in a terminal state with the winner set, `returns()` gives the
bid originator `numPlayers - 1` and every other player `-1`; with the loser
set it gives the originator `-(numPlayers - 1)` and every other player `+1`;
in both resolved cases the entries sum to exactly 0; and while unresolved
(winner and loser both `-1`, as in every non-terminal state) every entry
is 0. -/
theorem claim_C9_returns (s : LiarsPokerState)
    (hbo : s.bidOriginator < s.numPlayers) :
    (s.winner ≠ -1 →
      (returnsList s).getD s.bidOriginator 0 = (s.numPlayers : Int) - 1 ∧
      (∀ p, p < s.numPlayers → p ≠ s.bidOriginator →
        (returnsList s).getD p 0 = -1) ∧
      (returnsList s).sum = 0) ∧
    (s.winner = -1 → s.loser ≠ -1 →
      (returnsList s).getD s.bidOriginator 0 = -((s.numPlayers : Int) - 1) ∧
      (∀ p, p < s.numPlayers → p ≠ s.bidOriginator →
        (returnsList s).getD p 0 = 1) ∧
      (returnsList s).sum = 0) ∧
    (s.winner = -1 → s.loser = -1 →
      ∀ p, p < s.numPlayers → (returnsList s).getD p 0 = 0) := by
  have hget : ∀ p, p < s.numPlayers → (returnsList s).getD p 0
      = if p ≠ s.bidOriginator then othersReward s else bidderReward s := by
    intro p hp
    unfold returnsList
    exact getD_map_range _ _ _ hp
  have hsum : (returnsList s).sum
      = bidderReward s + othersReward s * ((s.numPlayers : Int) - 1) := by
    unfold returnsList
    exact sum_map_range_ite _ _ _ _ hbo
  refine ⟨?_, ?_, ?_⟩
  · intro hw
    refine ⟨?_, ?_, ?_⟩
    · rw [hget _ hbo]
      simp only [ne_eq, not_true_eq_false, if_false]
      unfold bidderReward
      rw [if_pos hw]
    · intro p hp hne
      rw [hget p hp]
      simp only [ne_eq, hne, not_false_eq_true, if_true]
      unfold othersReward
      rw [if_pos hw]
    · rw [hsum]
      unfold bidderReward othersReward
      rw [if_pos hw, if_pos hw]
      ring
  · intro hw hl
    have hnw : ¬(s.winner ≠ -1) := fun hc => hc hw
    refine ⟨?_, ?_, ?_⟩
    · rw [hget _ hbo]
      simp only [ne_eq, not_true_eq_false, if_false]
      unfold bidderReward
      rw [if_neg hnw, if_pos hl]
    · intro p hp hne
      rw [hget p hp]
      simp only [ne_eq, hne, not_false_eq_true, if_true]
      unfold othersReward
      rw [if_neg hnw, if_pos hl]
    · rw [hsum]
      unfold bidderReward othersReward
      rw [if_neg hnw, if_neg hnw, if_pos hl, if_pos hl]
      ring
  · intro hw hl p hp
    have hnw : ¬(s.winner ≠ -1) := fun hc => hc hw
    have hnl : ¬(s.loser ≠ -1) := fun hc => hc hl
    have hb0 : bidderReward s = 0 := by
      unfold bidderReward
      rw [if_neg hnw, if_neg hnl]
    have ho0 : othersReward s = 0 := by
      unfold othersReward
      rw [if_neg hnw, if_neg hnl]
    rw [hget p hp, hb0, ho0, ite_self]

/-- Witness for the returns claim at the concrete resolved state
`stateChal2` (2 players, winner set, originator player 1): the originator's
return is `numPlayers - 1` and the returns sum to 0. -/
theorem claim_C9_returns_witness :
    stateChal2.bidOriginator < stateChal2.numPlayers ∧
    stateChal2.winner ≠ -1 ∧
    (returnsList stateChal2).getD stateChal2.bidOriginator 0
      = (stateChal2.numPlayers : Int) - 1 ∧
    (returnsList stateChal2).sum = 0 := by
  have h := (claim_C9_returns stateChal2 (by decide)).1 (by decide)
  exact ⟨by decide, by decide, h.1, h.2.2⟩

/-- Python list lookup at a nonnegative in-range index is plain lookup. -/
theorem pyGet_natCast {α : Type} (l : List α) (n : Nat) (hn : n < l.length) :
    pyGet l (n : Int) = l.get? n := by
  unfold pyGet pyIdx
  rw [if_pos (Int.natCast_nonneg n), Int.toNat_natCast, if_pos hn]

/-- Python list lookup at a nonnegative in-range index, phrased with the
default-valued accessor. -/
theorem pyGet_eq_getD {α : Type} [Inhabited α] (l : List α) (n : Nat) (d : α)
    (hn : n < l.length) :
    pyGet l (n : Int) = some (l.getD n d) := by
  rw [pyGet_natCast l n hn, List.get?_eq_getElem?, List.getElem?_eq_getElem hn,
    List.getD_eq_getElem?_getD, List.getElem?_eq_getElem hn]
  rfl

/-- Evaluation of `_decode_bid` on a nonnegative bid whose digit-block index
is within the deck. -/
theorem decode_bid_natCast (s : LiarsPokerState) (b : Nat)
    (h : b / (s.handLength * s.numPlayers) < s.deck.length) :
    decode_bid s (b : Int)
      = some (((b % (s.handLength * s.numPlayers) : Nat) : Int),
              s.deck.getD (b / (s.handLength * s.numPlayers)) 0) := by
  unfold decode_bid
  rw [show Int.ediv (b : Int) ((s.handLength * s.numPlayers : Nat) : Int)
        = ((b / (s.handLength * s.numPlayers) : Nat) : Int) from rfl]
  rw [pyGet_eq_getD s.deck _ 0 h]
  rw [show Int.emod (b : Int) ((s.handLength * s.numPlayers : Nat) : Int)
        = ((b % (s.handLength * s.numPlayers) : Nat) : Int) from rfl]

/-- Claim C10: for every bid identifier in `[0, totalBids)`, `_decode_bid`
yields count `bidId mod (handLength * numPlayers)` and the deck digit at
index `bidId div (handLength * numPlayers)`, re-encoding the resulting
`(count, digitIndex)` pair yields back the identifier, and conversely every
in-range `(count, digitIndex)` pair decodes from its encoding — so
encode/decode is a bijection over `[0, totalBids)`. -/
theorem claim_C10_decode_encode (s : LiarsPokerState) (b : Nat)
    (hb : b < totalBids s)
    (hdeck : s.deck.length = s.numDigits)
    (hpos : 0 < s.handLength * s.numPlayers) :
    decode_bid s (b : Int)
      = some (((b % (s.handLength * s.numPlayers) : Nat) : Int),
              s.deck.getD (b / (s.handLength * s.numPlayers)) 0) ∧
    encodeBid s (b % (s.handLength * s.numPlayers))
        (b / (s.handLength * s.numPlayers)) = b ∧
    (∀ c di : Nat, c < s.handLength * s.numPlayers → di < s.numDigits →
      decode_bid s ((encodeBid s c di : Nat) : Int)
        = some ((c : Int), s.deck.getD di 0)) := by
  have htot : totalBids s = s.numDigits * (s.handLength * s.numPlayers) := by
    unfold totalBids
    ring
  have hdiv : b / (s.handLength * s.numPlayers) < s.deck.length := by
    rw [hdeck]
    exact (Nat.div_lt_iff_lt_mul hpos).mpr (by omega)
  refine ⟨decode_bid_natCast s b hdiv, ?_, ?_⟩
  · unfold encodeBid
    exact Nat.div_add_mod' b (s.handLength * s.numPlayers)
  · intro c di hc hdi
    have he : encodeBid s c di = di * (s.handLength * s.numPlayers) + c := rfl
    have hdd : (di * (s.handLength * s.numPlayers) + c) /
        (s.handLength * s.numPlayers) = di := by
      rw [Nat.mul_comm di (s.handLength * s.numPlayers), Nat.mul_add_div hpos,
        Nat.div_eq_of_lt hc, Nat.add_zero]
    have hmd : (di * (s.handLength * s.numPlayers) + c) %
        (s.handLength * s.numPlayers) = c := by
      rw [Nat.mul_comm di (s.handLength * s.numPlayers), Nat.mul_add_mod,
        Nat.mod_eq_of_lt hc]
    have hdiv2 : encodeBid s c di / (s.handLength * s.numPlayers) <
        s.deck.length := by
      rw [he, hdd, hdeck]
      exact hdi
    have hres := decode_bid_natCast s (encodeBid s c di) hdiv2
    rw [he, hdd, hmd] at hres
    exact hres

/-- Witness for the decode/encode claim at the concrete two-digit game state
`stateZero` and bid identifier 3 (block 1, slot 1): decoding yields the mod
and div components and re-encoding restores 3. -/
theorem claim_C10_decode_encode_witness :
    (3 < totalBids stateZero ∧ stateZero.deck.length = stateZero.numDigits ∧
      0 < stateZero.handLength * stateZero.numPlayers) ∧
    decode_bid stateZero ((3 : Nat) : Int)
      = some (((3 % (stateZero.handLength * stateZero.numPlayers) : Nat) : Int),
          stateZero.deck.getD (3 / (stateZero.handLength * stateZero.numPlayers)) 0) ∧
    encodeBid stateZero (3 % (stateZero.handLength * stateZero.numPlayers))
      (3 / (stateZero.handLength * stateZero.numPlayers)) = 3 := by
  have h := claim_C10_decode_encode stateZero 3 (by decide) (by decide) (by decide)
  exact ⟨⟨by decide, by decide, by decide⟩, h.1, h.2.1⟩
